import Mathlib

/-!
Shallow embedding of the RustKey input monitor (src/main.rs) and proofs of
its specified properties.  Key codes are modelled as `Nat` (the Rust `u32`),
floating-point coordinates as `ℚ`, and each `println!` as one emitted `Line`.
-/

namespace RustKey

/-- Embedding of `key_name` (src/main.rs lines 68-113): converts a key code to
a readable name, with the fallback `"UNKNOWN KEY"` for any other code. -/
def key_name (key_code : Nat) : String :=
  match key_code with
  | 1 => "ESC"
  | 28 => "ENTER"
  | 14 => "BACKSPACE"
  | 15 => "TAB"
  | 57 => "SPACE"
  | 16 => "Q" | 17 => "W" | 18 => "E" | 19 => "R" | 20 => "T"
  | 21 => "Y" | 22 => "U" | 23 => "I" | 24 => "O" | 25 => "P"
  | 30 => "A" | 31 => "S" | 32 => "D" | 33 => "F" | 34 => "G"
  | 35 => "H" | 36 => "J" | 37 => "K" | 38 => "L"
  | 44 => "Z" | 45 => "X" | 46 => "C" | 47 => "V" | 48 => "B"
  | 49 => "N" | 50 => "M"
  | 103 => "UP" | 105 => "LEFT" | 106 => "RIGHT" | 108 => "DOWN"
  | 59 => "F1" | 60 => "F2" | 61 => "F3" | 62 => "F4"
  | 63 => "F5" | 64 => "F6" | 65 => "F7" | 66 => "F8"
  | 67 => "F9" | 68 => "F10" | 87 => "F11" | 88 => "F12"
  | 29 => "CTRL" | 42 => "SHIFT (LEFT)" | 54 => "SHIFT (RIGHT)"
  | 56 => "ALT" | 100 => "ALT GR" | 125 => "SUPER/WIN"
  | 2 => "1" | 3 => "2" | 4 => "3" | 5 => "4" | 6 => "5"
  | 7 => "6" | 8 => "7" | 9 => "8" | 10 => "9" | 11 => "0"
  | 12 => "-" | 13 => "=" | 26 => "[" | 27 => "]" | 39 => ";"
  | 40 => "\x27" | 41 => "\x60" | 43 => "\\" | 51 => "," | 52 => "."
  | 53 => "/" | 58 => "CAPS LOCK" | 69 => "NUM LOCK" | 70 => "SCROLL LOCK"
  | 71 => "NUM 7" | 72 => "NUM 8" | 73 => "NUM 9" | 74 => "NUM -"
  | 75 => "NUM 4" | 76 => "NUM 5" | 77 => "NUM 6" | 78 => "NUM +"
  | 79 => "NUM 1" | 80 => "NUM 2" | 81 => "NUM 3" | 82 => "NUM 0"
  | 83 => "NUM ." | 96 => "NUM ENTER" | 98 => "NUM /" | 55 => "NUM *"
  | 113 => "MUTE" | 114 => "VOLUME DOWN" | 115 => "VOLUME UP"
  | 99 => "PRINT SCREEN" | 119 => "PAUSE" | 110 => "HOME" | 102 => "PAGE UP"
  | 107 => "END" | 109 => "PAGE DOWN" | 111 => "DELETE" | 118 => "INSERT"
  | 127 => "PAUSE" | 128 => "PREV TRACK" | 129 => "NEXT TRACK"
  | 130 => "STOP" | 131 => "PLAY/PAUSE"
  | _ => "UNKNOWN KEY"

/-- The lookup table of `key_name` as data: every defined code paired with its
documented label, in source order (src/main.rs lines 70-109). -/
def keyTable : List (Nat × String) :=
  [(1, "ESC"), (28, "ENTER"), (14, "BACKSPACE"), (15, "TAB"), (57, "SPACE"),
   (16, "Q"), (17, "W"), (18, "E"), (19, "R"), (20, "T"),
   (21, "Y"), (22, "U"), (23, "I"), (24, "O"), (25, "P"),
   (30, "A"), (31, "S"), (32, "D"), (33, "F"), (34, "G"),
   (35, "H"), (36, "J"), (37, "K"), (38, "L"),
   (44, "Z"), (45, "X"), (46, "C"), (47, "V"), (48, "B"),
   (49, "N"), (50, "M"),
   (103, "UP"), (105, "LEFT"), (106, "RIGHT"), (108, "DOWN"),
   (59, "F1"), (60, "F2"), (61, "F3"), (62, "F4"),
   (63, "F5"), (64, "F6"), (65, "F7"), (66, "F8"),
   (67, "F9"), (68, "F10"), (87, "F11"), (88, "F12"),
   (29, "CTRL"), (42, "SHIFT (LEFT)"), (54, "SHIFT (RIGHT)"),
   (56, "ALT"), (100, "ALT GR"), (125, "SUPER/WIN"),
   (2, "1"), (3, "2"), (4, "3"), (5, "4"), (6, "5"),
   (7, "6"), (8, "7"), (9, "8"), (10, "9"), (11, "0"),
   (12, "-"), (13, "="), (26, "["), (27, "]"), (39, ";"),
   (40, "\x27"), (41, "\x60"), (43, "\\"), (51, ","), (52, "."),
   (53, "/"), (58, "CAPS LOCK"), (69, "NUM LOCK"), (70, "SCROLL LOCK"),
   (71, "NUM 7"), (72, "NUM 8"), (73, "NUM 9"), (74, "NUM -"),
   (75, "NUM 4"), (76, "NUM 5"), (77, "NUM 6"), (78, "NUM +"),
   (79, "NUM 1"), (80, "NUM 2"), (81, "NUM 3"), (82, "NUM 0"),
   (83, "NUM ."), (96, "NUM ENTER"), (98, "NUM /"), (55, "NUM *"),
   (113, "MUTE"), (114, "VOLUME DOWN"), (115, "VOLUME UP"),
   (99, "PRINT SCREEN"), (119, "PAUSE"), (110, "HOME"), (102, "PAGE UP"),
   (107, "END"), (109, "PAGE DOWN"), (111, "DELETE"), (118, "INSERT"),
   (127, "PAUSE"), (128, "PREV TRACK"), (129, "NEXT TRACK"),
   (130, "STOP"), (131, "PLAY/PAUSE")]

/-! ### Text search over debug strings

The pointer-button branch of `main` (src/main.rs lines 226-268) inspects the
textual (`Debug`) representation of the button event with `contains`, `find`,
range slicing and `parse::<u32>()`.  Strings are modelled as `List Char`;
Rust's byte indices coincide with character indices on the ASCII debug text.
-/

/-- Does `pat` occur at the very start of `s`?  (Used by `findSub`.) -/
def matchesAt : List Char → List Char → Bool
  | [], _ => true
  | _ :: _, [] => false
  | p :: ps, c :: cs => p == c && matchesAt ps cs

/-- Embedding of Rust `str::find`: index of the first occurrence of `pat` in
`s`, or `none`. -/
def findSub (s pat : List Char) : Option Nat :=
  match s with
  | [] => if matchesAt pat [] then some 0 else none
  | c :: t =>
    if matchesAt pat (c :: t) then some 0
    else (findSub t pat).map (fun i => i + 1)

/-- Embedding of Rust `str::contains`. -/
def containsSub (s pat : List Char) : Bool := (findSub s pat).isSome

/-- Embedding of Rust range slicing `&s[a..b]`: `none` models the panic on an
out-of-range slice. -/
def slice (s : List Char) (a b : Nat) : Option (List Char) :=
  if a ≤ b ∧ b ≤ s.length then some ((s.drop a).take (b - a)) else none

/-- Embedding of Rust `str::parse::<u32>()`: an optional leading `+`, then at
least one digit, value below `2 ^ 32`. -/
def parseU32 (s : List Char) : Option Nat :=
  let digits := match s with
    | '+' :: rest => rest
    | _ => s
  if digits ≠ [] ∧ digits.all Char.isDigit then
    let n := digits.foldl (fun acc c => acc * 10 + (c.toNat - 48)) 0
    if n < 2 ^ 32 then some n else none
  else none

/-- The pattern `"button: "` searched for in the debug text. -/
def buttonPat : List Char := ['b', 'u', 't', 't', 'o', 'n', ':', ' ']

/-- The generic mouse-button description started from at line 229. -/
def genericButtonDesc : String := "🖱️  Mouse button"

/-- Embedding of the button-number extraction (src/main.rs lines 227-253):
returns the built `description` and `button_num`; `none` models a panic
(out-of-range slice), which the proofs show never happens. -/
def extractButtonDesc (debug : List Char) : Option (String × Nat) :=
  if containsSub debug buttonPat then
    match findSub debug buttonPat with
    | some btn_start =>
      match findSub (debug.drop btn_start) [','] with
      | some btn_end =>
        match slice debug (btn_start + 8) (btn_start + btn_end) with
        | some btn_str =>
          match parseU32 btn_str with
          | some btn =>
            let button_name : String :=
              match btn with
              | 272 => "LEFT"
              | 273 => "RIGHT"
              | 274 => "MIDDLE"
              | 275 => "SIDE"
              | 276 => "EXTRA"
              | _ => String.mk btn_str
            some (genericButtonDesc ++ " " ++ button_name ++ " (" ++ toString btn ++ ")", btn)
          | none => some (genericButtonDesc ++ " " ++ String.mk btn_str, 0)
        | none => none
      | none => some (genericButtonDesc, 0)
    | none => some (genericButtonDesc, 0)
  else some (genericButtonDesc, 0)

/-! ### Event model and program state

The events drained from libinput (`for event in &mut input`, line 163) form a
tagged union; the variants below carry exactly the data the program reads.
Variants processed only through their `Debug` text carry that text.  `f64`
coordinates are modelled as `ℚ`.
-/

/-- Variants of a device event (lines 166-174); `OtherDevice` is the wildcard
arm. -/
inductive DeviceEvent
  | Added
  | Removed
  | OtherDevice
deriving DecidableEq

/-- Key state of a keyboard key event (line 183). -/
inductive KeyState
  | Pressed
  | Released
deriving DecidableEq

/-- Keyboard events (lines 176-201): a key event with its code and state, or
any other keyboard event. -/
inductive KeyboardEvent
  | Key (key_code : Nat) (key_state : KeyState)
  | OtherKeyboard
deriving DecidableEq

/-- Scroll axes (`input::event::pointer::Axis`). -/
inductive Axis
  | Horizontal
  | Vertical
deriving DecidableEq

/-- The v120 scroll values a scroll-wheel event carries: `none` on an axis the
event does not have. -/
structure ScrollWheelData where
  horizontal : Option ℚ
  vertical : Option ℚ
deriving DecidableEq

/-- Embedding of `scroll.has_axis(axis)` (lines 273, 279). -/
def has_axis (sw : ScrollWheelData) (a : Axis) : Bool :=
  match a with
  | .Horizontal => sw.horizontal.isSome
  | .Vertical => sw.vertical.isSome

/-- Embedding of `scroll.scroll_value_v120(axis)` (lines 274, 280); libinput
returns 0 for an axis the event does not have. -/
def scroll_value_v120 (sw : ScrollWheelData) (a : Axis) : ℚ :=
  match a with
  | .Horizontal => sw.horizontal.getD 0
  | .Vertical => sw.vertical.getD 0

/-- Pointer events (lines 204-304); `Button` and `OtherPointer` carry the
`Debug` text the program searches. -/
inductive PointerEvent
  | Motion (dx dy : ℚ)
  | MotionAbsolute (absolute_x absolute_y : ℚ)
  | Button (debug : List Char)
  | ScrollWheel (data : ScrollWheelData)
  | ScrollFinger
  | ScrollContinuous
  | OtherPointer (debug : List Char)
deriving DecidableEq

/-- One incoming event (the `match event` at line 164). -/
inductive Event
  | Device (de : DeviceEvent)
  | Keyboard (ke : KeyboardEvent)
  | Pointer (pe : PointerEvent)
  | Touch (debug : List Char)
  | Gesture (debug : List Char)
  | Tablet
  | Switch
  | Other
deriving DecidableEq

/-- Embedding of `MouseState` (lines 30-35). -/
structure MouseState where
  x : ℚ
  y : ℚ
  dx : ℚ
  dy : ℚ
deriving DecidableEq

/-- The mutable state of `main`: the mouse state (lines 148-153) and the two
statistics counters (lines 156-157). -/
structure State where
  mouse : MouseState
  key_press_count : Nat
  mouse_click_count : Nat
deriving DecidableEq

/-- The state at process start (lines 148-157): everything zero. -/
def initState : State :=
  { mouse := { x := 0, y := 0, dx := 0, dy := 0 },
    key_press_count := 0,
    mouse_click_count := 0 }

/-- One printed line; each constructor corresponds to one `println!` of the
event match (lines 164-328) and carries the values interpolated into it. -/
inductive Line
  | deviceAdded
  | deviceRemoved
  | otherDeviceEvent
  | keyPress (key_text : String) (key_code : Nat)
  | keyPressTotal (key_text : String) (total : Nat)
  | keyRelease (key_text : String) (key_code : Nat)
  | otherKeyboard
  | motion (x y dx dy : ℚ)
  | motionAbsolute (x y : ℚ)
  | buttonPressed (description : String) (x y : ℚ) (total : Nat)
  | buttonReleased (description : String) (x y : ℚ)
  | scrollWheel (scroll_x scroll_y : ℚ)
  | scrollFinger
  | scrollContinuous
  | pointerVariant (variant : List Char)
  | otherPointer (debug : List Char)
  | touchVariant (variant : List Char)
  | touchOther (debug : List Char)
  | gestureVariant (variant : List Char)
  | gestureOther (debug : List Char)
  | tabletEvent
  | switchEvent
  | otherEvent
deriving DecidableEq

/-- The pattern `"Pressed"` searched for at line 255. -/
def pressedPat : List Char := ['P', 'r', 'e', 's', 's', 'e', 'd']

/-- The pattern `"Released"` searched for at line 262. -/
def releasedPat : List Char := ['R', 'e', 'l', 'e', 'a', 's', 'e', 'd']

/-- Variant-name extraction used for unhandled pointer, touch and gesture
events (lines 296-303, 308-314, 317-323): the debug text up to the first
opening parenthesis, if any. -/
def variantName (debug : List Char) : Option (List Char) :=
  match findSub debug ['('] with
  | some e => some (debug.take e)
  | none => none

/-- Embedding of the body of the event match (src/main.rs lines 163-328):
processing one event yields the updated state and the printed lines. -/
def processEvent (st : State) (ev : Event) : State × List Line :=
  match ev with
  | .Device de =>
    match de with
    | .Added => (st, [.deviceAdded])
    | .Removed => (st, [.deviceRemoved])
    | .OtherDevice => (st, [.otherDeviceEvent])
  | .Keyboard ke =>
    match ke with
    | .Key key_code key_state =>
      let key_text := key_name key_code
      match key_state with
      | .Pressed =>
        let key_press_count := st.key_press_count + 1
        ({ st with key_press_count := key_press_count },
         [.keyPress key_text key_code, .keyPressTotal key_text key_press_count])
      | .Released => (st, [.keyRelease key_text key_code])
    | .OtherKeyboard => (st, [.otherKeyboard])
  | .Pointer pe =>
    match pe with
    | .Motion dx dy =>
      let ms : MouseState :=
        { x := st.mouse.x + dx, y := st.mouse.y + dy, dx := dx, dy := dy }
      ({ st with mouse := ms }, [.motion ms.x ms.y ms.dx ms.dy])
    | .MotionAbsolute ax ay =>
      let ms : MouseState := { st.mouse with x := ax, y := ay }
      ({ st with mouse := ms }, [.motionAbsolute ms.x ms.y])
    | .Button debug =>
      let description := ((extractButtonDesc debug).getD (genericButtonDesc, 0)).1
      if containsSub debug pressedPat then
        let mouse_click_count := st.mouse_click_count + 1
        ({ st with mouse_click_count := mouse_click_count },
         [.buttonPressed (description ++ " - PRESSED") st.mouse.x st.mouse.y
            mouse_click_count])
      else if containsSub debug releasedPat then
        (st, [.buttonReleased (description ++ " - RELEASED") st.mouse.x st.mouse.y])
      else (st, [])
    | .ScrollWheel sw =>
      let scroll_y := if has_axis sw .Vertical then scroll_value_v120 sw .Vertical else 0
      let scroll_x := if has_axis sw .Horizontal then scroll_value_v120 sw .Horizontal else 0
      (st, [.scrollWheel scroll_x scroll_y])
    | .ScrollFinger => (st, [.scrollFinger])
    | .ScrollContinuous => (st, [.scrollContinuous])
    | .OtherPointer debug =>
      match variantName debug with
      | some v => (st, [.pointerVariant v])
      | none => (st, [.otherPointer debug])
  | .Touch debug =>
    match variantName debug with
    | some v => (st, [.touchVariant v])
    | none => (st, [.touchOther debug])
  | .Gesture debug =>
    match variantName debug with
    | some v => (st, [.gestureVariant v])
    | none => (st, [.gestureOther debug])
  | .Tablet => (st, [.tabletEvent])
  | .Switch => (st, [.switchEvent])
  | .Other => (st, [.otherEvent])

/-- Embedding of the event-draining loop `for event in &mut input` (line 163):
process the queued events in order, threading the state and collecting the
printed lines. -/
def runEvents (st : State) : List Event → State × List Line
  | [] => (st, [])
  | e :: rest =>
    let r := processEvent st e
    let rr := runEvents r.1 rest
    (rr.1, r.2 ++ rr.2)

/-- Models `input.udev_assign_seat("seat0").unwrap()` (line 142): `none` is
the unwrap panic aborting the process. -/
def startupSeat (seatResult : Except Unit Unit) : Option Unit :=
  match seatResult with
  | .ok u => some u
  | .error _ => none

/-- Models one iteration of the main loop (lines 160-331):
`input.dispatch().unwrap()` followed by draining the queued events; `none` is
the unwrap panic aborting the process. -/
def loopIteration (dispatchResult : Except Int Unit) (evs : List Event)
    (st : State) : Option (State × List Line) :=
  match dispatchResult with
  | .ok _ => some (runEvents st evs)
  | .error _ => none

/-- The number of lines the event match actually prints per event: two for a
keyboard key press (lines 185-194), none for a pointer button event whose
debug text names neither press nor release (the `if`/`else if` at lines
255-268), and one for everything else. -/
def linesExpected (ev : Event) : Nat :=
  match ev with
  | .Keyboard (.Key _ .Pressed) => 2
  | .Pointer (.Button d) =>
    if containsSub d pressedPat || containsSub d releasedPat then 1 else 0
  | _ => 1

/-- Does this event increment `key_press_count` (line 184)?  Exactly the
keyboard key events in the `Pressed` state. -/
def isKeyPress (ev : Event) : Bool :=
  match ev with
  | .Keyboard (.Key _ .Pressed) => true
  | _ => false

/-- Does this event increment `mouse_click_count` (line 256)?  Exactly the
pointer button events whose debug text contains `"Pressed"`. -/
def isButtonPress (ev : Event) : Bool :=
  match ev with
  | .Pointer (.Button d) => containsSub d pressedPat
  | _ => false

/-- A relative pointer motion event with delta `d`. -/
def motionEvent (d : ℚ × ℚ) : Event := .Pointer (.Motion d.1 d.2)

/-! ### The key-code table -/

set_option maxRecDepth 10000 in
theorem key_name_table : ∀ p ∈ keyTable, key_name p.1 = p.2 := by decide

set_option maxRecDepth 10000 in
theorem key_name_default_small :
    ∀ c < 132, c ∉ keyTable.map Prod.fst → key_name c = "UNKNOWN KEY" := by decide

theorem key_name_default_large (d : Nat) : key_name (d + 132) = "UNKNOWN KEY" := rfl

/-- C1: `key_name` is total: every code in the lookup table resolves to its
documented label, and every other code resolves to the fallback
`"UNKNOWN KEY"`. -/
theorem C1_key_name_total :
    (∀ p ∈ keyTable, key_name p.1 = p.2) ∧
    (∀ c : Nat, c ∉ keyTable.map Prod.fst → key_name c = "UNKNOWN KEY") := by
  refine ⟨key_name_table, fun c hc => ?_⟩
  by_cases h : c < 132
  · exact key_name_default_small c h hc
  · obtain ⟨d, rfl⟩ : ∃ d, c = d + 132 := ⟨c - 132, by omega⟩
    exact key_name_default_large d

/-- Witness for C1 at concrete codes: defined codes 1, 28, 57 and the
undefined code 999. -/
theorem C1_key_name_total_witness :
    key_name 1 = "ESC" ∧ key_name 28 = "ENTER" ∧ key_name 57 = "SPACE" ∧
    key_name 999 = "UNKNOWN KEY" :=
  ⟨C1_key_name_total.1 (1, "ESC") (by decide),
   C1_key_name_total.1 (28, "ENTER") (by decide),
   C1_key_name_total.1 (57, "SPACE") (by decide),
   C1_key_name_total.2 999 (by decide)⟩

/-! ### Properties of the text search -/

theorem matchesAt_length {pat s : List Char} (h : matchesAt pat s = true) :
    pat.length ≤ s.length := by
  induction pat generalizing s with
  | nil => simp
  | cons p ps ih =>
    cases s with
    | nil => simp [matchesAt] at h
    | cons c cs =>
      simp only [matchesAt, Bool.and_eq_true, beq_iff_eq] at h
      simpa [Nat.succ_le_succ_iff] using ih h.2

theorem matchesAt_getElem {pat s : List Char} (h : matchesAt pat s = true)
    {j : Nat} (hj : j < pat.length) : s[j]? = pat[j]? := by
  induction pat generalizing s j with
  | nil => simp at hj
  | cons p ps ih =>
    cases s with
    | nil => simp [matchesAt] at h
    | cons c cs =>
      simp only [matchesAt, Bool.and_eq_true, beq_iff_eq] at h
      cases j with
      | zero => simp [h.1]
      | succ k =>
        simp only [List.getElem?_cons_succ]
        exact ih h.2 (by simpa [Nat.succ_lt_succ_iff] using hj)

theorem findSub_some {s pat : List Char} {i : Nat} (h : findSub s pat = some i) :
    i ≤ s.length ∧ matchesAt pat (s.drop i) = true := by
  induction s generalizing i with
  | nil =>
    unfold findSub at h
    split at h
    next hm =>
      injection h with h
      subst h
      exact ⟨Nat.le_refl 0, hm⟩
    next => exact absurd h (by simp)
  | cons c t ih =>
    unfold findSub at h
    split at h
    next hm =>
      injection h with h
      subst h
      exact ⟨Nat.zero_le _, hm⟩
    next hm =>
      cases hf : findSub t pat with
      | none => rw [hf] at h; exact absurd h (by simp)
      | some k =>
        rw [hf] at h
        simp only [Option.map_some'] at h
        injection h with h
        subst h
        obtain ⟨h1, h2⟩ := ih hf
        exact ⟨by simpa using Nat.succ_le_succ h1, by simpa using h2⟩

theorem findSub_min {s pat : List Char} {i : Nat} (h : findSub s pat = some i) :
    ∀ j, j < i → matchesAt pat (s.drop j) = false := by
  induction s generalizing i with
  | nil =>
    intro j hj
    unfold findSub at h
    split at h
    next =>
      injection h with h
      omega
    next => exact absurd h (by simp)
  | cons c t ih =>
    intro j hj
    unfold findSub at h
    split at h
    next =>
      injection h with h
      omega
    next hm =>
      cases hf : findSub t pat with
      | none => rw [hf] at h; exact absurd h (by simp)
      | some k =>
        rw [hf] at h
        simp only [Option.map_some'] at h
        injection h with h
        subst h
        cases j with
        | zero => simpa using hm
        | succ m =>
          have hrec := ih hf m (by omega)
          simpa using hrec

/-- A comma found in the debug text after `"button: "` lies at least 8
characters in: the slice `btn_start + 8 .. btn_start + btn_end` taken at
line 235 is therefore well formed. -/
theorem comma_after_button {s : List Char} {i j : Nat}
    (hb : findSub s buttonPat = some i)
    (hc : findSub (s.drop i) [','] = some j) : 8 ≤ j := by
  by_contra hlt
  push_neg at hlt
  have h1 := (findSub_some hb).2
  have h2 := (findSub_some hc).2
  have hbl : j < buttonPat.length := by
    simp only [buttonPat, List.length_cons, List.length_nil]
    omega
  have hg : (s.drop i)[j]? = buttonPat[j]? := matchesAt_getElem h1 hbl
  have hcm : ((s.drop i).drop j)[0]? = ([','] : List Char)[0]? :=
    matchesAt_getElem h2 (by simp)
  rw [List.getElem?_drop] at hcm
  simp only [Nat.add_zero, List.getElem?_cons_zero] at hcm
  rw [hcm] at hg
  interval_cases j <;> exact absurd hg (by decide)

/-- The button extraction never panics: the slice at line 235 is always in
range, so the result is always `some`. -/
theorem extractButtonDesc_isSome (s : List Char) :
    (extractButtonDesc s).isSome = true := by
  unfold extractButtonDesc
  split
  · split
    next i hb =>
      split
      next j hc =>
        have h8 : 8 ≤ j := comma_after_button hb hc
        have hi := (findSub_some hb).1
        have hj := (findSub_some hc).1
        have hjlen : j ≤ s.length - i := by
          simpa [List.length_drop] using hj
        have hslice : slice s (i + 8) (i + j) =
            some ((s.drop (i + 8)).take (i + j - (i + 8))) := by
          unfold slice
          rw [if_pos]
          exact ⟨by omega, by omega⟩
        rw [hslice]
        split
        next => split <;> simp
        next heq2 => exact absurd heq2 (by simp)
      next => simp
    next => simp
  · simp

/-- Every description built by the button extraction begins with the generic
`"Mouse button"` label. -/
theorem extractButtonDesc_label (s : List Char) {r : String × Nat}
    (h : extractButtonDesc s = some r) :
    ∃ rest : String, r.1 = genericButtonDesc ++ rest := by
  unfold extractButtonDesc at h
  split at h
  · split at h
    · split at h
      · split at h
        · split at h
          · simp only [] at h
            injection h with h
            subst h
            simp only [String.append_assoc]
            exact ⟨_, rfl⟩
          · injection h with h
            subst h
            simp only [String.append_assoc]
            exact ⟨_, rfl⟩
        · exact absurd h (by simp)
      · injection h with h
        subst h
        exact ⟨"", by simp⟩
    · injection h with h
      subst h
      exact ⟨"", by simp⟩
  · injection h with h
    subst h
    exact ⟨"", by simp⟩

/-! ### Claims about the dispatch loop -/

/-- C2 counterexample: a keyboard key press prints two lines (lines 185-194),
not exactly one. -/
theorem C2_counterexample :
    (processEvent initState (.Keyboard (.Key 30 .Pressed))).2.length = 2 ∧
    (processEvent initState (.Keyboard (.Key 30 .Pressed))).2.length ≠ 1 := by
  constructor <;> decide

/-- C2 (amended): each processed event prints exactly one line, except that a
keyboard key press prints exactly two and a pointer button event whose debug
text contains neither `"Pressed"` nor `"Released"` prints none. -/
theorem C2_lines_per_event (st : State) (ev : Event) :
    (processEvent st ev).2.length = linesExpected ev := by
  cases ev with
  | Device de => cases de <;> rfl
  | Keyboard ke =>
    cases ke with
    | Key code ks => cases ks <;> rfl
    | OtherKeyboard => rfl
  | Pointer pe =>
    cases pe with
    | Motion dx dy => rfl
    | MotionAbsolute ax ay => rfl
    | Button d =>
      by_cases hp : containsSub d pressedPat <;>
        by_cases hr : containsSub d releasedPat <;>
          simp [processEvent, linesExpected, hp, hr]
    | ScrollWheel sw => rfl
    | ScrollFinger => rfl
    | ScrollContinuous => rfl
    | OtherPointer d =>
      cases h : variantName d <;> simp [processEvent, linesExpected, h]
  | Touch d => cases h : variantName d <;> simp [processEvent, linesExpected, h]
  | Gesture d => cases h : variantName d <;> simp [processEvent, linesExpected, h]
  | Tablet => rfl
  | Switch => rfl
  | Other => rfl

theorem counters_step (st : State) (ev : Event) :
    (processEvent st ev).1.key_press_count
        = st.key_press_count + (if isKeyPress ev then 1 else 0) ∧
    (processEvent st ev).1.mouse_click_count
        = st.mouse_click_count + (if isButtonPress ev then 1 else 0) := by
  cases ev with
  | Device de => cases de <;> exact ⟨rfl, rfl⟩
  | Keyboard ke =>
    cases ke with
    | Key code ks => cases ks <;> exact ⟨rfl, rfl⟩
    | OtherKeyboard => exact ⟨rfl, rfl⟩
  | Pointer pe =>
    cases pe with
    | Motion dx dy => exact ⟨rfl, rfl⟩
    | MotionAbsolute ax ay => exact ⟨rfl, rfl⟩
    | Button d =>
      by_cases hp : containsSub d pressedPat <;>
        by_cases hr : containsSub d releasedPat <;>
          simp [processEvent, isKeyPress, isButtonPress, hp, hr]
    | ScrollWheel sw => exact ⟨rfl, rfl⟩
    | ScrollFinger => exact ⟨rfl, rfl⟩
    | ScrollContinuous => exact ⟨rfl, rfl⟩
    | OtherPointer d =>
      cases h : variantName d <;>
        simp [processEvent, isKeyPress, isButtonPress, h]
  | Touch d =>
    cases h : variantName d <;>
      simp [processEvent, isKeyPress, isButtonPress, h]
  | Gesture d =>
    cases h : variantName d <;>
      simp [processEvent, isKeyPress, isButtonPress, h]
  | Tablet => exact ⟨rfl, rfl⟩
  | Switch => exact ⟨rfl, rfl⟩
  | Other => exact ⟨rfl, rfl⟩

theorem counters_mono (st : State) (evs : List Event) :
    st.key_press_count ≤ (runEvents st evs).1.key_press_count ∧
    st.mouse_click_count ≤ (runEvents st evs).1.mouse_click_count := by
  induction evs generalizing st with
  | nil => exact ⟨Nat.le_refl _, Nat.le_refl _⟩
  | cons e rest ih =>
    have hstep := counters_step st e
    have hk : st.key_press_count ≤ (processEvent st e).1.key_press_count := by
      rw [hstep.1]; exact Nat.le_add_right _ _
    have hc : st.mouse_click_count ≤ (processEvent st e).1.mouse_click_count := by
      rw [hstep.2]; exact Nat.le_add_right _ _
    have hrest := ih (processEvent st e).1
    simp only [runEvents]
    exact ⟨Nat.le_trans hk hrest.1, Nat.le_trans hc hrest.2⟩

/-- C3: both counters start at zero, each qualifying event increments its
counter by exactly one, no other event changes either counter, and both
counters are monotonically non-decreasing across every event sequence. -/
theorem C3_counters (st : State) (ev : Event) (evs : List Event) :
    initState.key_press_count = 0 ∧
    initState.mouse_click_count = 0 ∧
    (processEvent st ev).1.key_press_count
        = st.key_press_count + (if isKeyPress ev then 1 else 0) ∧
    (processEvent st ev).1.mouse_click_count
        = st.mouse_click_count + (if isButtonPress ev then 1 else 0) ∧
    st.key_press_count ≤ (runEvents st evs).1.key_press_count ∧
    st.mouse_click_count ≤ (runEvents st evs).1.mouse_click_count :=
  ⟨rfl, rfl, (counters_step st ev).1, (counters_step st ev).2,
   (counters_mono st evs).1, (counters_mono st evs).2⟩

theorem motion_sum (st : State) (ds : List (ℚ × ℚ)) :
    (runEvents st (ds.map motionEvent)).1.mouse.x
        = st.mouse.x + (ds.map Prod.fst).sum ∧
    (runEvents st (ds.map motionEvent)).1.mouse.y
        = st.mouse.y + (ds.map Prod.snd).sum := by
  induction ds generalizing st with
  | nil => simp [runEvents]
  | cons d rest ih =>
    have h := ih (processEvent st (motionEvent d)).1
    have hx : (processEvent st (motionEvent d)).1.mouse.x = st.mouse.x + d.1 := rfl
    have hy : (processEvent st (motionEvent d)).1.mouse.y = st.mouse.y + d.2 := rfl
    simp only [List.map_cons, runEvents, List.sum_cons]
    constructor
    · rw [h.1, hx]; ring
    · rw [h.2, hy]; ring

theorem motion_last_delta (st : State) (pre : List (ℚ × ℚ)) (d : ℚ × ℚ) :
    (runEvents st ((pre ++ [d]).map motionEvent)).1.mouse.dx = d.1 ∧
    (runEvents st ((pre ++ [d]).map motionEvent)).1.mouse.dy = d.2 := by
  induction pre generalizing st with
  | nil => exact ⟨rfl, rfl⟩
  | cons p pre ih =>
    simpa only [List.cons_append, List.map_cons, runEvents]
      using ih (processEvent st (motionEvent p)).1

/-- C4: processing only relative motion events from the initial state leaves
the cursor at the componentwise sum of the deltas, and after each event the
stored delta is that event's delta. -/
theorem C4_motion (ds : List (ℚ × ℚ)) :
    ((runEvents initState (ds.map motionEvent)).1.mouse.x = (ds.map Prod.fst).sum ∧
     (runEvents initState (ds.map motionEvent)).1.mouse.y = (ds.map Prod.snd).sum) ∧
    (∀ pre d post, ds = pre ++ d :: post →
      (runEvents initState ((pre ++ [d]).map motionEvent)).1.mouse.dx = d.1 ∧
      (runEvents initState ((pre ++ [d]).map motionEvent)).1.mouse.dy = d.2) := by
  constructor
  · have h := motion_sum initState ds
    simpa [initState] using h
  · intro pre d post _
    exact motion_last_delta initState pre d

/-- Witness for C4 on the concrete delta sequence `[(1, 2), (3, 4)]`: the
position is the sum of the deltas and the delta stored after the second
event is `(3, 4)`. -/
theorem C4_motion_witness :
    (runEvents initState ((([(1, 2), (3, 4)] : List (ℚ × ℚ)).map motionEvent))).1.mouse.x
        = (([(1, 2), (3, 4)] : List (ℚ × ℚ)).map Prod.fst).sum ∧
    (runEvents initState ((([(1, 2)] : List (ℚ × ℚ)) ++ [(3, 4)]).map motionEvent)).1.mouse.dx
        = 3 :=
  ⟨(C4_motion [(1, 2), (3, 4)]).1.1,
   ((C4_motion [(1, 2), (3, 4)]).2 [(1, 2)] (3, 4) [] rfl).1⟩

/-- C5 counterexample: on the malformed debug text `"button: abc, x"` the
extraction produces the generic label with the unparsed text appended — not
the generic `"Mouse button"` label itself. -/
theorem C5_counterexample :
    extractButtonDesc ("button: abc, x".toList) = some ("🖱️  Mouse button abc", 0) ∧
    ("🖱️  Mouse button abc" : String) ≠ genericButtonDesc := by
  constructor <;> decide

/-- C5 (amended): on sample well-formed debug strings the extraction returns
the documented id and name; it never panics on any input; when the
`"button: "` pattern is absent the description is exactly the generic label;
and on every input the description begins with the generic label (with any
unparsed button text appended after it). -/
theorem C5_button_extraction (s : List Char) :
    extractButtonDesc ("event button: 272, state: Pressed".toList)
        = some ("🖱️  Mouse button LEFT (272)", 272) ∧
    extractButtonDesc ("event button: 273, state: Pressed".toList)
        = some ("🖱️  Mouse button RIGHT (273)", 273) ∧
    extractButtonDesc ("event button: 274, state: Released".toList)
        = some ("🖱️  Mouse button MIDDLE (274)", 274) ∧
    extractButtonDesc ("event button: 275, state: Pressed".toList)
        = some ("🖱️  Mouse button SIDE (275)", 275) ∧
    extractButtonDesc ("event button: 276, state: Pressed".toList)
        = some ("🖱️  Mouse button EXTRA (276)", 276) ∧
    (extractButtonDesc s).isSome = true ∧
    (containsSub s buttonPat = false →
      extractButtonDesc s = some (genericButtonDesc, 0)) ∧
    (∀ r, extractButtonDesc s = some r →
      ∃ rest, r.1 = genericButtonDesc ++ rest) := by
  refine ⟨by decide, by decide, by decide, by decide, by decide,
    extractButtonDesc_isSome s, ?_, fun r h => extractButtonDesc_label s h⟩
  intro hnc
  unfold extractButtonDesc
  simp [hnc]

/-- Witness for C5 at the concrete input `"no match"`: the pattern is absent,
so the description is exactly the generic label. -/
theorem C5_button_extraction_witness :
    extractButtonDesc ("no match".toList) = some (genericButtonDesc, 0) ∧
    ∃ rest, (genericButtonDesc, (0 : Nat)).1 = genericButtonDesc ++ rest :=
  ⟨(C5_button_extraction ("no match".toList)).2.2.2.2.2.2.1 (by decide),
   (C5_button_extraction ("no match".toList)).2.2.2.2.2.2.2 (genericButtonDesc, 0)
     ((C5_button_extraction ("no match".toList)).2.2.2.2.2.2.1 (by decide))⟩

/-- C6: a failed seat assignment (line 142) or a failed dispatch (line 161)
is unwrapped, so the process aborts (`none`) with no recovery path, while a
successful dispatch proceeds to drain the queued events. -/
theorem C6_fatal_unwrap (e : Unit) (err : Int) (evs : List Event) (st : State) :
    startupSeat (.error e) = none ∧
    loopIteration (.error err) evs st = none ∧
    startupSeat (.ok ()) = some () ∧
    loopIteration (.ok ()) evs st = some (runEvents st evs) :=
  ⟨rfl, rfl, rfl, rfl⟩

/-- C7: an absolute pointer motion event sets the cursor position to the
event's absolute coordinates and leaves the stored relative delta and both
counters unchanged, printing the one absolute-position line. -/
theorem C7_motion_absolute (st : State) (ax ay : ℚ) :
    (processEvent st (.Pointer (.MotionAbsolute ax ay))).1.mouse.x = ax ∧
    (processEvent st (.Pointer (.MotionAbsolute ax ay))).1.mouse.y = ay ∧
    (processEvent st (.Pointer (.MotionAbsolute ax ay))).1.mouse.dx = st.mouse.dx ∧
    (processEvent st (.Pointer (.MotionAbsolute ax ay))).1.mouse.dy = st.mouse.dy ∧
    (processEvent st (.Pointer (.MotionAbsolute ax ay))).1.key_press_count
        = st.key_press_count ∧
    (processEvent st (.Pointer (.MotionAbsolute ax ay))).1.mouse_click_count
        = st.mouse_click_count ∧
    (processEvent st (.Pointer (.MotionAbsolute ax ay))).2
        = [.motionAbsolute ax ay] :=
  ⟨rfl, rfl, rfl, rfl, rfl, rfl, rfl⟩

/-- C8: per-event processing is a pure, deterministic transformation — equal
prior states and equal events yield the same printed lines and updated
state — and the only internally fallible step, the button-text extraction,
never produces an error. -/
theorem C8_pure (s1 s2 : State) (e1 e2 : Event) (d : List Char)
    (hs : s1 = s2) (he : e1 = e2) :
    processEvent s1 e1 = processEvent s2 e2 ∧
    (extractButtonDesc d).isSome = true := by
  subst hs; subst he
  exact ⟨rfl, extractButtonDesc_isSome d⟩

/-- Witness for C8 at a concrete state, event and debug text. -/
theorem C8_pure_witness :
    processEvent initState Event.Other = processEvent initState Event.Other ∧
    (extractButtonDesc ("event button: 272, state: Pressed".toList)).isSome = true :=
  C8_pure initState initState Event.Other Event.Other
    ("event button: 272, state: Pressed".toList) rfl rfl

/-- C9: each event category touches only its own state: keyboard events leave
the mouse state and click counter unchanged, pointer events leave the
key-press counter unchanged, and device, touch, gesture, tablet, switch and
other events leave the whole state unchanged. -/
theorem C9_frame (st : State) (ke : KeyboardEvent) (pe : PointerEvent)
    (de : DeviceEvent) (td gd : List Char) :
    (processEvent st (.Keyboard ke)).1.mouse = st.mouse ∧
    (processEvent st (.Keyboard ke)).1.mouse_click_count = st.mouse_click_count ∧
    (processEvent st (.Pointer pe)).1.key_press_count = st.key_press_count ∧
    (processEvent st (.Device de)).1 = st ∧
    (processEvent st (.Touch td)).1 = st ∧
    (processEvent st (.Gesture gd)).1 = st ∧
    (processEvent st .Tablet).1 = st ∧
    (processEvent st .Switch).1 = st ∧
    (processEvent st .Other).1 = st := by
  refine ⟨?_, ?_, ?_, ?_, ?_, ?_, rfl, rfl, rfl⟩
  · cases ke with
    | Key code ks => cases ks <;> rfl
    | OtherKeyboard => rfl
  · cases ke with
    | Key code ks => cases ks <;> rfl
    | OtherKeyboard => rfl
  · cases pe with
    | Motion dx dy => rfl
    | MotionAbsolute ax ay => rfl
    | Button d =>
      by_cases hp : containsSub d pressedPat <;>
        by_cases hr : containsSub d releasedPat <;>
          simp [processEvent, hp, hr]
    | ScrollWheel sw => rfl
    | ScrollFinger => rfl
    | ScrollContinuous => rfl
    | OtherPointer d => cases h : variantName d <;> simp [processEvent, h]
  · cases de <;> rfl
  · cases h : variantName td <;> simp [processEvent, h]
  · cases h : variantName gd <;> simp [processEvent, h]

/-- C10: the scroll-wheel line reports, per axis, the event's v120 value when
the event has that axis and exactly 0 when it lacks it. -/
theorem C10_scroll (st : State) (sw : ScrollWheelData) :
    processEvent st (.Pointer (.ScrollWheel sw)) =
      (st, [Line.scrollWheel
        (if has_axis sw .Horizontal then scroll_value_v120 sw .Horizontal else 0)
        (if has_axis sw .Vertical then scroll_value_v120 sw .Vertical else 0)]) ∧
    (∀ v, sw.horizontal = some v →
      (if has_axis sw .Horizontal then scroll_value_v120 sw .Horizontal else 0) = v) ∧
    (sw.horizontal = none →
      (if has_axis sw .Horizontal then scroll_value_v120 sw .Horizontal else 0) = 0) ∧
    (∀ v, sw.vertical = some v →
      (if has_axis sw .Vertical then scroll_value_v120 sw .Vertical else 0) = v) ∧
    (sw.vertical = none →
      (if has_axis sw .Vertical then scroll_value_v120 sw .Vertical else 0) = 0) := by
  refine ⟨rfl, ?_, ?_, ?_, ?_⟩ <;>
    (intros; simp_all [has_axis, scroll_value_v120])

/-- Witness for C10 on a wheel event with a horizontal v120 value of 5 and no
vertical axis. -/
theorem C10_scroll_witness :
    (if has_axis ⟨some 5, none⟩ .Horizontal
      then scroll_value_v120 ⟨some 5, none⟩ .Horizontal else 0) = 5 ∧
    (if has_axis ⟨some 5, none⟩ .Vertical
      then scroll_value_v120 ⟨some 5, none⟩ .Vertical else 0) = 0 :=
  ⟨(C10_scroll initState ⟨some 5, none⟩).2.1 5 rfl,
   (C10_scroll initState ⟨some 5, none⟩).2.2.2.2 rfl⟩

end RustKey
